import Mathlib

/-!
Verification of the patent-documentation coordination layer.

The development shallowly embeds the two halves of the program:

* the server half: a single mutable `currentSession` slot, a duplicate-
  suppression ledger (`_recentOperations`, a map from operation key to the
  timestamp of the last executed call), and the five patent functions
  (`create_template`, `resume_patent_creation`, `display_patent`,
  `export_as_pdf`, `send_user_response`);
* the client half (the `ToolPanel` component): the configuration effect
  guarded by the `functionAdded` flag, the inbound-events effect that
  inspects only the most recent event and suppresses a function call whose
  serialization equals the immediately preceding one, and the reset effect
  that clears the component state when the channel deactivates.

Timestamps are natural numbers (milliseconds).  The file system is an
association list from path to content together with a set of paths whose
writes fail, which models `fs.writeFileSync` raising; `mkdirSync` is
modelled as always succeeding (directories are left implicit).
-/

set_option autoImplicit false

namespace PatentApp

/-- Association-list lookup, first binding wins (models `Map.get`). -/
def lookupKV {β : Type} : List (String × β) → String → Option β
  | [], _ => none
  | (k, v) :: rest, key => if k = key then some v else lookupKV rest key

/-- Association-list update in place (models `Map.set`: an existing key keeps
its position, a fresh key is appended). -/
def setKV {β : Type} : List (String × β) → String → β → List (String × β)
  | [], key, v => [(key, v)]
  | (k, w) :: rest, key, v =>
    if k = key then (key, v) :: rest else (k, w) :: setKV rest key v

/-- The duplicate-suppression ledger `_recentOperations`: key ↦ timestamp. -/
abbrev Ledger := List (String × Nat)

/-- The eviction loop of `_checkDuplicate`: delete every entry with
`now - time > timeWindow`. -/
def purgeOld (now timeWindow : Nat) (l : Ledger) : Ledger :=
  l.filter (fun e => now - e.2 ≤ timeWindow)

/-- Model of `_checkDuplicate(operation, args, timeWindow)`.  Returns the duplicate
flag together with the ledger after the call.  On the duplicate branch the
source returns early: the timestamp is not refreshed and no eviction runs.
Otherwise the timestamp of the key is set to `now` and stale entries are purged.
The `lastTime ≠ 0` conjunct models JavaScript truthiness of `lastTime`
(both a missing entry and a zero timestamp fail the `lastTime &&` guard). -/
def checkDuplicate (operation argsJson : String) (timeWindow now : Nat)
    (recentOperations : Ledger) : Bool × Ledger :=
  let key := operation ++ "-" ++ argsJson
  match lookupKV recentOperations key with
  | some lastTime =>
    if lastTime ≠ 0 ∧ now - lastTime < timeWindow then
      (true, recentOperations)
    else
      (false, purgeOld now timeWindow (setKV recentOperations key now))
  | none => (false, purgeOld now timeWindow (setKV recentOperations key now))

/-- A patent session record. -/
structure Session where
  id : String
  title : String
  path : String
  createdAt : Nat
  lastModified : Nat
  deriving DecidableEq, Repr

/-- Model of `createPatentSession(title)`: builds the record that the source stores in
the `currentSession` slot: `id = Date.now().toString()` and
`path = path.join(cwd, "patents", sessionId)` (the constant `cwd` prefix is
dropped). -/
def createPatentSession (title : String) (now : Nat) : Session :=
  let sessionId := toString now
  { id := sessionId
    title := title
    path := "patents/" ++ sessionId
    createdAt := now
    lastModified := now }

/-- Model of `getCurrentSession()`: just reads the slot. -/
def getCurrentSession (slot : Option Session) : Option Session := slot

/-- Model of `updateSessionModified()`: touch `lastModified` when a session exists. -/
def updateSessionModified (slot : Option Session) (now : Nat) : Option Session :=
  match slot with
  | some s => some { s with lastModified := now }
  | none => none

/-- A `startNew` call at the registry level: build the record and replace the
single active-session slot, returning the record. -/
def startNew (_slot : Option Session) (title : String) (now : Nat) :
    Session × Option Session :=
  let s := createPatentSession title now
  (s, some s)

/-- A sequence of `startNew` calls (title, clock value), threaded through the
active-session slot. -/
def runStartNew (slot : Option Session) (calls : List (String × Nat)) :
    Option Session :=
  calls.foldl (fun s c => (startNew s c.1 c.2).2) slot

/-- The file system: path ↦ content, plus the set of paths whose
`writeFileSync` raises. -/
structure FS where
  files : List (String × String)
  failingWrites : List String
  deriving DecidableEq, Repr

/-- Model of `fs.readFileSync` combined with `fs.existsSync`: `none` when the blob is
missing. -/
def FS.readFile (fs : FS) (p : String) : Option String :=
  lookupKV fs.files p

/-- Model of `fs.writeFileSync`: raises (modelled as `Except.error`) exactly on the
designated failing paths. -/
def FS.writeFile (fs : FS) (p c : String) : Except String FS :=
  if fs.failingWrites.contains p then
    Except.error ("storage error at " ++ p)
  else
    Except.ok { fs with files := setKV fs.files p c }

/-- The whole server state: the `currentSession` slot, the
`_recentOperations` ledger, and the file system. -/
structure ServerState where
  currentSession : Option Session
  recentOperations : Ledger
  fs : FS
  deriving DecidableEq, Repr

/-- The state of a freshly started server process. -/
def cleanServerState : ServerState :=
  { currentSession := none
    recentOperations := []
    fs := { files := [], failingWrites := [] } }

/-- A function result `{success, message?, error?, content?, path?, session?}`;
absent JSON fields are `none`. -/
structure FnResult where
  success : Bool
  message : Option String := none
  error : Option String := none
  content : Option String := none
  path : Option String := none
  session : Option Session := none
  deriving DecidableEq, Repr

/-- The initial markdown skeleton written by `create_template`. -/
def initialMd (title : String) : String :=
  "# " ++ title ++
  "\n\n## Abstract\n[Brief summary of the invention]" ++
  "\n\n## Background\n[Context and existing solutions]" ++
  "\n\n## Summary\n[Overview of the invention]" ++
  "\n\n## Detailed Description\n[Complete technical details]" ++
  "\n\n## Claims\n[Legal claims of the patent]\n"

/-- Model of `JSON.stringify` on the title argument object, the serialized payload of a
`create_template` call. -/
def serializeTitleArgs (title : String) : String :=
  "\x7b\"title\":\"" ++ title ++ "\"\x7d"

/-- Model of `create_template(args)`.  Order follows the source: duplicate check first,
then `createPatentSession` (which already replaces the slot), then the
skeleton write; a write failure lands in the catch branch, which returns
`{success:false, error}` with no `message` field. -/
def create_template (title : String) (now : Nat) (st : ServerState) :
    FnResult × ServerState :=
  let checked := checkDuplicate "create_template" (serializeTitleArgs title)
    2000 now st.recentOperations
  if checked.1 then
    ({ success := false, message := some "Duplicate operation prevented" },
     { st with recentOperations := checked.2 })
  else
    let session := createPatentSession title now
    let st1 : ServerState :=
      { st with recentOperations := checked.2, currentSession := some session }
    let mdPath := session.path ++ "/main.md"
    match st1.fs.writeFile mdPath (initialMd title) with
    | Except.ok fs1 =>
      ({ success := true
         path := some session.path
         content := some (initialMd title)
         message := some ("Created new patent document for \"" ++ title ++
           "\". Let\x27s start documenting your invention.") },
       { st1 with fs := fs1 })
    | Except.error e =>
      ({ success := false, error := some e }, st1)

/-- Model of `resume_patent_creation()`: duplicate check (key
`resume_patent_creation-` followed by the empty JSON object), then re-read
the document of the active session. -/
def resume_patent_creation (now : Nat) (st : ServerState) :
    FnResult × ServerState :=
  let checked := checkDuplicate "resume_patent_creation" "\x7b\x7d"
    2000 now st.recentOperations
  if checked.1 then
    ({ success := false, message := some "Duplicate operation prevented" },
     { st with recentOperations := checked.2 })
  else
    let st1 : ServerState := { st with recentOperations := checked.2 }
    match getCurrentSession st1.currentSession with
    | none =>
      ({ success := false
         message := some
           "No active patent session found. Would you like to start a new one?" },
       st1)
    | some session =>
      match st1.fs.readFile (session.path ++ "/main.md") with
      | none => ({ success := false, message := some "Patent file not found" }, st1)
      | some content =>
        ({ success := true
           session := some session
           content := some content
           message := some ("Reopened patent document for \"" ++ session.title ++
             "\". Let\x27s continue documenting your invention.") },
         st1)

/-- Model of `display_patent()`: read and return the current document. -/
def display_patent (st : ServerState) : FnResult × ServerState :=
  match getCurrentSession st.currentSession with
  | none =>
    ({ success := false, message := some "No active patent session found" }, st)
  | some session =>
    match st.fs.readFile (session.path ++ "/main.md") with
    | none => ({ success := false, message := some "Patent file not found" }, st)
    | some content =>
      ({ success := true
         content := some content
         message := some
           "Here\x27s your current patent document. Which section would you like to work on?" },
       st)

/-- Model of `export_as_pdf()`: placeholder only, no conversion happens. -/
def export_as_pdf (st : ServerState) : FnResult × ServerState :=
  match getCurrentSession st.currentSession with
  | none =>
    ({ success := false, message := some "No active patent session found" }, st)
  | some session =>
    match st.fs.readFile (session.path ++ "/main.md") with
    | none => ({ success := false, message := some "Patent file not found" }, st)
    | some _ =>
      ({ success := true
         message := some "PDF export will be implemented in a future update"
         path := some (session.path ++ "/patent.pdf") },
       st)

/-- Model of `send_user_response(args)`: append the two-newline separator plus the
message to the document and
touch `lastModified`.  A read or write failure lands in the catch branch,
which returns `{success:false, error}` with no `message` field. -/
def send_user_response (message : String) (now : Nat) (st : ServerState) :
    FnResult × ServerState :=
  match getCurrentSession st.currentSession with
  | none =>
    ({ success := false, message := some "No active patent session found" }, st)
  | some session =>
    let mdPath := session.path ++ "/main.md"
    match st.fs.readFile mdPath with
    | none =>
      ({ success := false, error := some ("storage error at " ++ mdPath) }, st)
    | some currentContent =>
      let updatedContent := currentContent ++ "\n\n" ++ message
      match st.fs.writeFile mdPath updatedContent with
      | Except.error e => ({ success := false, error := some e }, st)
      | Except.ok fs1 =>
        ({ success := true
           message := some
             "Content added to the patent document. What else would you like to document?" },
         { st with fs := fs1
                   currentSession := updateSessionModified st.currentSession now })

/-- A call into the dispatch table `patentFunctions`, with its parsed
arguments. -/
inductive FnCall where
  | create_template (title : String)
  | resume_patent_creation
  | display_patent
  | export_as_pdf
  | send_user_response (message : String)
  deriving DecidableEq, Repr

/-- The dispatch table `patentFunctions[name](args)`. -/
def dispatch (c : FnCall) (now : Nat) (st : ServerState) :
    FnResult × ServerState :=
  match c with
  | FnCall.create_template title => create_template title now st
  | FnCall.resume_patent_creation => resume_patent_creation now st
  | FnCall.display_patent => display_patent st
  | FnCall.export_as_pdf => export_as_pdf st
  | FnCall.send_user_response message => send_user_response message now st

/-- A server state whose next skeleton write (for a session created at
clock 5) raises a storage error; used to exercise the catch branch. -/
def failingWriteState : ServerState :=
  { currentSession := none
    recentOperations := []
    fs := { files := [], failingWrites := ["patents/5/main.md"] } }

/-- A sequence of `send_user_response` calls (message, clock value). -/
def runAppends (st : ServerState) (msgs : List (String × Nat)) : ServerState :=
  msgs.foldl (fun s mt => (send_user_response mt.1 mt.2 s).2) st

/-- The concatenation of appended blocks: each block is preceded by the
two-newline separator. -/
def appendBlocks : List String → String
  | [] => ""
  | m :: ms => "\n\n" ++ m ++ appendBlocks ms

/-- A sequence of `_checkDuplicate` calls for one fixed operation and
argument payload, at the given clock values; collects the duplicate flags. -/
def runChecks (operation argsJson : String) (ops : Ledger) :
    List Nat → List Bool × Ledger
  | [] => ([], ops)
  | t :: ts =>
    let c := checkDuplicate operation argsJson 2000 t ops
    let rest := runChecks operation argsJson c.2 ts
    (c.1 :: rest.1, rest.2)

/-- One entry of a `response.output` array. -/
structure Output where
  type : String
  name : String
  arguments : String
  call_id : String
  deriving DecidableEq, Repr

/-- Model of `JSON.stringify(output)`, the serialized form compared against the
most-recent-call marker. -/
def serializeOutput (o : Output) : String :=
  "\x7b\"type\":\"" ++ o.type ++ "\",\"name\":\"" ++ o.name ++
  "\",\"arguments\":\"" ++ o.arguments ++ "\",\"call_id\":\"" ++ o.call_id ++
  "\"\x7d"

/-- An inbound protocol event; `output` is `response?.output` (absent when
either `response` or its `output` array is missing). -/
structure InEvent where
  type : String
  output : Option (List Output)
  deriving DecidableEq, Repr

/-- The `ToolPanel` component state: the `functionAdded` flag, the
`functionCallOutput` slot handed to the executor component, and the
`lastFunctionCallRef` marker. -/
structure RelayState where
  functionAdded : Bool
  functionCallOutput : Option Output
  lastFunctionCall : Option String
  deriving DecidableEq, Repr

/-- The component state on mount, and after the deactivation reset. -/
def initRelayState : RelayState :=
  { functionAdded := false, functionCallOutput := none, lastFunctionCall := none }

/-- One iteration of the `forEach` over `response.output`: a `function_call`
output whose serialization equals the most recent one is dropped; otherwise
the marker is updated, the output is stored, and it is delivered for
execution (collected in the second component). -/
def processOutput (acc : RelayState × List Output) (o : Output) :
    RelayState × List Output :=
  if o.type = "function_call" then
    let currentCall := serializeOutput o
    if acc.1.lastFunctionCall = some currentCall then
      acc
    else
      ({ acc.1 with lastFunctionCall := some currentCall
                    functionCallOutput := some o },
       acc.2 ++ [o])
  else
    acc

/-- One run of the inbound-events effect: only `events[0]` is inspected, and
only when it is a `response.done` carrying an output array.  Returns the new
state and the outputs delivered for execution during this run. -/
def handleEvents (s : RelayState) (events : List InEvent) :
    RelayState × List Output :=
  match events with
  | [] => (s, [])
  | mostRecentEvent :: _ =>
    if mostRecentEvent.type = "response.done" then
      match mostRecentEvent.output with
      | some outs => outs.foldl processOutput (s, [])
      | none => (s, [])
    else
      (s, [])

/-- One run of the configuration effect: when the channel is active and the
configuration has not been sent for this activation, send the
`session.update` instructions payload (counted in the second component) and
set the flag. -/
def configEffect (isSessionActive : Bool) (s : RelayState) : RelayState × Nat :=
  if isSessionActive ∧ s.functionAdded = false then
    ({ s with functionAdded := true }, 1)
  else
    (s, 0)

/-- One run of the reset effect: when the channel is inactive, clear the
flag, the pending output and the most-recent-call marker. -/
def resetEffect (isSessionActive : Bool) (s : RelayState) : RelayState :=
  if isSessionActive = false then initRelayState else s

/-- One render cycle of the panel at a given channel-activity value: the
configuration effect followed by the reset effect. -/
def panelStep (s : RelayState) (isSessionActive : Bool) : RelayState × Nat :=
  let c := configEffect isSessionActive s
  (resetEffect isSessionActive c.1, c.2)

/-- A run of render cycles; sums the configuration events sent. -/
def runPanel (s : RelayState) : List Bool → RelayState × Nat
  | [] => (s, 0)
  | b :: rest =>
    let c := panelStep s b
    let r := runPanel c.1 rest
    (r.1, c.2 + r.2)

/-- A `response.done` inbound event carrying the given output array. -/
def mkResponseDone (outs : List Output) : InEvent :=
  { type := "response.done", output := some outs }

/-- A concrete sample function-call output, used in witnesses. -/
def sampleCallA : Output :=
  { type := "function_call", name := "create_template",
    arguments := "a", call_id := "c1" }

/-- A second, distinct sample function-call output, used in witnesses. -/
def sampleCallB : Output :=
  { type := "function_call", name := "display_patent",
    arguments := "b", call_id := "c2" }

/-- A sample inbound event that is not a `response.done`. -/
def sampleOtherEvent : InEvent := { type := "session.created", output := none }

/-- The combined world: the client component state and the server state. -/
structure World where
  relay : RelayState
  server : ServerState
  deriving DecidableEq, Repr

/-- The channel transition from active to inactive: only the reset effect of
the component runs, meaning
reset effect runs; the server state is untouched. -/
def deactivateChannel (w : World) : World :=
  { w with relay := resetEffect false w.relay }

/-! ### Association-list and ledger lemmas -/

theorem lookupKV_setKV_self {β : Type} (l : List (String × β)) (k : String) (v : β) :
    lookupKV (setKV l k v) k = some v := by
  induction l with
  | nil => simp [setKV, lookupKV]
  | cons hd tl ih =>
    obtain ⟨k', w⟩ := hd
    by_cases h : k' = k
    · simp [setKV, h, lookupKV]
    · simp [setKV, h, lookupKV, ih]

theorem lookupKV_purge_setKV (l : Ledger) (k : String) (now tw : Nat) :
    lookupKV (purgeOld now tw (setKV l k now)) k = some now := by
  induction l with
  | nil => simp [setKV, purgeOld, lookupKV]
  | cons hd tl ih =>
    obtain ⟨k', w⟩ := hd
    by_cases h : k' = k
    · simp [setKV, h, purgeOld, lookupKV]
    · by_cases hk : now - w ≤ tw
      · simp only [setKV, if_neg h, purgeOld, List.filter]
        simp only [purgeOld] at ih
        simp only [decide_eq_true hk, lookupKV, if_neg h]
        simpa using ih
      · simp only [setKV, if_neg h, purgeOld, List.filter]
        simp only [purgeOld] at ih
        simp only [decide_eq_false hk]
        simpa using ih

theorem mem_purgeOld {now tw : Nat} {l : Ledger} {e : String × Nat}
    (h : e ∈ purgeOld now tw l) : now - e.2 ≤ tw := by
  simp only [purgeOld, List.mem_filter, decide_eq_true_eq] at h
  exact h.2

/-! ### Injectivity of the decimal printer behind session ids -/

/-- Numeric value of a decimal digit character. -/
def digitVal (c : Char) : Nat := c.toNat - 48

/-- Place-value reading of a digit string, starting from accumulator `a`. -/
def digitsValFrom (a : Nat) (l : List Char) : Nat :=
  l.foldl (fun acc c => 10 * acc + digitVal c) a

theorem digitsValFrom_shift (l : List Char) :
    ∀ a : Nat, digitsValFrom a l = a * 10 ^ l.length + digitsValFrom 0 l := by
  induction l with
  | nil => intro a; simp [digitsValFrom]
  | cons c tl ih =>
    intro a
    simp only [digitsValFrom, List.foldl, List.length_cons]
    rw [show (List.foldl (fun acc c => 10 * acc + digitVal c) (10 * a + digitVal c) tl =
      digitsValFrom (10 * a + digitVal c) tl) from rfl]
    rw [show (List.foldl (fun acc c => 10 * acc + digitVal c) (10 * 0 + digitVal c) tl =
      digitsValFrom (10 * 0 + digitVal c) tl) from rfl]
    rw [ih (10 * a + digitVal c), ih (10 * 0 + digitVal c)]
    ring

theorem digitVal_digitChar : ∀ d : Nat, d < 10 → digitVal (Nat.digitChar d) = d := by
  decide

theorem digitsValFrom_toDigitsCore :
    ∀ (fuel n : Nat) (ds : List Char), n ≤ fuel →
      digitsValFrom 0 (Nat.toDigitsCore 10 (fuel + 1) n ds) =
        n * 10 ^ ds.length + digitsValFrom 0 ds := by
  intro fuel
  induction fuel with
  | zero =>
    intro n ds hn
    have hn0 : n = 0 := Nat.le_zero.mp hn
    subst hn0
    simp [Nat.toDigitsCore, digitsValFrom, digitVal,
      show (Nat.digitChar 0).toNat = 48 from rfl]
  | succ fuel ih =>
    intro n ds hn
    rw [show fuel + 1 + 1 = fuel + 2 from rfl]
    rw [Nat.toDigitsCore]
    by_cases h10 : n / 10 = 0
    · simp only [h10, if_pos]
      have hmod : n % 10 = n := by omega
      have hvc : digitVal (Nat.digitChar (n % 10)) = n % 10 :=
        digitVal_digitChar (n % 10) (by omega)
      simp only [digitsValFrom, List.foldl]
      rw [show (List.foldl (fun acc c => 10 * acc + digitVal c)
        (10 * 0 + digitVal (Nat.digitChar (n % 10))) ds =
        digitsValFrom (10 * 0 + digitVal (Nat.digitChar (n % 10))) ds) from rfl]
      rw [digitsValFrom_shift ds, hvc, hmod]
      simp only [digitsValFrom]
      ring
    · rw [if_neg h10]
      have hfuel : n / 10 ≤ fuel := by omega
      rw [ih (n / 10) (Nat.digitChar (n % 10) :: ds) hfuel]
      have hvc : digitVal (Nat.digitChar (n % 10)) = n % 10 :=
        digitVal_digitChar (n % 10) (by omega)
      simp only [digitsValFrom, List.foldl, List.length_cons]
      rw [show (List.foldl (fun acc c => 10 * acc + digitVal c)
        (10 * 0 + digitVal (Nat.digitChar (n % 10))) ds =
        digitsValFrom (10 * 0 + digitVal (Nat.digitChar (n % 10))) ds) from rfl]
      rw [digitsValFrom_shift ds, hvc]
      have hd : n / 10 * 10 + n % 10 = n := by omega
      conv_rhs => rw [← hd]
      simp only [digitsValFrom]
      ring

theorem digitsValFrom_repr (n : Nat) : digitsValFrom 0 (Nat.repr n).data = n := by
  have h := digitsValFrom_toDigitsCore n n [] (Nat.le_refl n)
  simpa [Nat.repr, Nat.toDigits, List.asString, digitsValFrom] using h

theorem nat_repr_injective {a b : Nat} (h : Nat.repr a = Nat.repr b) : a = b := by
  have ha := digitsValFrom_repr a
  have hb := digitsValFrom_repr b
  rw [h] at ha
  omega

/-! ### `checkDuplicate` branch lemmas -/

theorem checkDuplicate_not_seen (op args : String) (tw now : Nat) (ops : Ledger)
    (h : lookupKV ops (op ++ "-" ++ args) = none) :
    checkDuplicate op args tw now ops =
      (false, purgeOld now tw (setKV ops (op ++ "-" ++ args) now)) := by
  simp [checkDuplicate, h]

theorem checkDuplicate_recent (op args : String) (tw now lastTime : Nat) (ops : Ledger)
    (h : lookupKV ops (op ++ "-" ++ args) = some lastTime)
    (h0 : lastTime ≠ 0) (hlt : now - lastTime < tw) :
    checkDuplicate op args tw now ops = (true, ops) := by
  simp [checkDuplicate, h, h0, hlt]

theorem checkDuplicate_stale (op args : String) (tw now lastTime : Nat) (ops : Ledger)
    (h : lookupKV ops (op ++ "-" ++ args) = some lastTime)
    (hge : tw ≤ now - lastTime) :
    checkDuplicate op args tw now ops =
      (false, purgeOld now tw (setKV ops (op ++ "-" ++ args) now)) := by
  have : ¬ (lastTime ≠ 0 ∧ now - lastTime < tw) := by
    rintro ⟨-, hlt⟩
    omega
  simp [checkDuplicate, h, this]

theorem checkDuplicate_true_eq (op args : String) (tw now : Nat) (ops : Ledger)
    (h : (checkDuplicate op args tw now ops).1 = true) :
    (checkDuplicate op args tw now ops).2 = ops := by
  unfold checkDuplicate at h ⊢
  cases hl : lookupKV ops (op ++ "-" ++ args) with
  | none => simp [hl] at h
  | some lastTime =>
    by_cases hc : lastTime ≠ 0 ∧ now - lastTime < tw
    · simp [hl, hc]
    · simp [hl, hc] at h

/-! ### String helpers -/

theorem string_append_assoc (a b c : String) : a ++ b ++ c = a ++ (b ++ c) := by
  apply String.ext
  simp [List.append_assoc]

theorem string_append_empty (a : String) : a ++ "" = a := by
  apply String.ext
  simp [show ("" : String).data = [] from rfl]

/-! ### Relay effect lemmas -/

theorem handleEvents_single_new (s : RelayState) (o : Output)
    (ho : o.type = "function_call")
    (h : s.lastFunctionCall ≠ some (serializeOutput o)) :
    handleEvents s [mkResponseDone [o]] =
      ({ s with lastFunctionCall := some (serializeOutput o)
                functionCallOutput := some o }, [o]) := by
  simp [handleEvents, mkResponseDone, processOutput, ho, h]

theorem handleEvents_single_dup (s : RelayState) (o : Output)
    (h : s.lastFunctionCall = some (serializeOutput o)) :
    handleEvents s [mkResponseDone [o]] = (s, []) := by
  by_cases ht : o.type = "function_call" <;>
    simp [handleEvents, mkResponseDone, processOutput, ht, h]

/-- C10: On each update of the inbound event list, the relay inspects only
the first (most recent) element: the outcome of the run is unchanged when all the
older events are discarded, so a `response.done` that is not at the head is
never inspected and its function calls are never delivered; in particular,
when the head is not a `response.done`, nothing is delivered at all, even if
older events in the list carry function calls. -/
theorem relay_inspects_only_head (s : RelayState) (e : InEvent)
    (rest : List InEvent) :
    handleEvents s (e :: rest) = handleEvents s [e] ∧
    (e.type ≠ "response.done" → (handleEvents s (e :: rest)).2 = []) := by
  constructor
  · rfl
  · intro h
    simp [handleEvents, h]

/-- Witness for C10: a `response.done` event carrying a function call is
dropped when a newer non-`response.done` event sits at the head. -/
theorem relay_inspects_only_head_witness :
    (handleEvents initRelayState
      [sampleOtherEvent, mkResponseDone [sampleCallA]]).2 = [] := by
  exact (relay_inspects_only_head initRelayState sampleOtherEvent
    [mkResponseDone [sampleCallA]]).2 (by decide)

/-- C2: Delivering the same serialized function-call output twice in a row
results in exactly one delivery to the executor; the comparison is only
against the single most recently processed signature, so after an
intervening distinct call the identical call is delivered and executed
again. -/
theorem relay_duplicate_delivery (s0 : RelayState) (o o' : Output)
    (ho : o.type = "function_call") (ho' : o'.type = "function_call")
    (hfresh : s0.lastFunctionCall ≠ some (serializeOutput o))
    (hne : serializeOutput o ≠ serializeOutput o') :
    (handleEvents s0 [mkResponseDone [o]]).2 = [o] ∧
    (handleEvents (handleEvents s0 [mkResponseDone [o]]).1
      [mkResponseDone [o]]).2 = [] ∧
    (handleEvents (handleEvents (handleEvents s0 [mkResponseDone [o]]).1
      [mkResponseDone [o]]).1 [mkResponseDone [o']]).2 = [o'] ∧
    (handleEvents (handleEvents (handleEvents (handleEvents s0
      [mkResponseDone [o]]).1 [mkResponseDone [o]]).1
      [mkResponseDone [o']]).1 [mkResponseDone [o]]).2 = [o] := by
  have e1 := handleEvents_single_new s0 o ho hfresh
  have e2 := handleEvents_single_dup
    { s0 with lastFunctionCall := some (serializeOutput o)
              functionCallOutput := some o } o rfl
  have e3 := handleEvents_single_new
    { s0 with lastFunctionCall := some (serializeOutput o)
              functionCallOutput := some o } o' ho'
    (by simp; intro hc; exact hne hc)
  have e4 := handleEvents_single_new
    { s0 with lastFunctionCall := some (serializeOutput o')
              functionCallOutput := some o' } o ho
    (by simp; intro hc; exact hne hc.symm)
  simp [e1, e2, e3, e4]

/-- Witness for C2 at a concrete pair of distinct function calls. -/
theorem relay_duplicate_delivery_witness :
    (handleEvents initRelayState [mkResponseDone [sampleCallA]]).2 =
      [sampleCallA] := by
  exact (relay_duplicate_delivery initRelayState sampleCallA sampleCallB
    rfl rfl (by decide) (by decide)).1

/-! ### Configuration-effect run lemmas -/

theorem runPanel_replicate_true_added (k : Nat) (s : RelayState)
    (h : s.functionAdded = true) :
    runPanel s (List.replicate k true) = (s, 0) := by
  induction k with
  | zero => simp [runPanel]
  | succ k ih =>
    simp [List.replicate, runPanel, panelStep, configEffect, resetEffect, h, ih]

theorem runPanel_replicate_true_fresh (k : Nat) (s : RelayState)
    (h : s.functionAdded = false) :
    runPanel s (List.replicate (k + 1) true) =
      ({ s with functionAdded := true }, 1) := by
  simp [List.replicate, runPanel, panelStep, configEffect, resetEffect, h,
    runPanel_replicate_true_added k { s with functionAdded := true } rfl]

theorem runPanel_append (s : RelayState) (l1 l2 : List Bool) :
    runPanel s (l1 ++ l2) =
      ((runPanel (runPanel s l1).1 l2).1,
       (runPanel s l1).2 + (runPanel (runPanel s l1).1 l2).2) := by
  induction l1 generalizing s with
  | nil => simp [runPanel]
  | cons b rest ih =>
    show runPanel s (b :: (rest ++ l2)) = _
    simp only [runPanel]
    rw [ih]
    simp only [Prod.mk.injEq]
    exact ⟨trivial, by omega⟩

/-- C3: Per channel activation exactly one configuration event is sent:
however many readiness signals arrive while the channel stays active, a
single activation sends one `session.update`, and a deactivation followed
by a reactivation sends exactly one more (two in total). -/
theorem config_sent_once_per_activation (n m : Nat) :
    (runPanel initRelayState (List.replicate (n + 1) true)).2 = 1 ∧
    (runPanel initRelayState
      (List.replicate (n + 1) true ++ false :: List.replicate (m + 1) true)).2
      = 2 := by
  have h1 := runPanel_replicate_true_fresh n initRelayState rfl
  constructor
  · rw [h1]
  · rw [runPanel_append, h1]
    rw [show (false :: List.replicate (m + 1) true) =
      [false] ++ List.replicate (m + 1) true from rfl]
    rw [runPanel_append]
    have h4 : runPanel { initRelayState with functionAdded := true } [false] =
        (initRelayState, 0) := by
      simp [runPanel, panelStep, configEffect, resetEffect]
    have h3 := runPanel_replicate_true_fresh m initRelayState rfl
    rw [h4, h3]
    simp

/-! ### Duplicate-suppression ledger claims -/

theorem checkDuplicate_false_eq (op args : String) (tw now : Nat) (ops : Ledger)
    (h : (checkDuplicate op args tw now ops).1 = false) :
    (checkDuplicate op args tw now ops).2 =
      purgeOld now tw (setKV ops (op ++ "-" ++ args) now) := by
  unfold checkDuplicate at h ⊢
  cases hl : lookupKV ops (op ++ "-" ++ args) with
  | none => simp [hl]
  | some lastTime =>
    by_cases hc : lastTime ≠ 0 ∧ now - lastTime < tw
    · simp [hl, hc] at h
    · simp [hl, hc]

/-- C8 counterexample: a suppressed (duplicate) invocation of
`_checkDuplicate` returns early and does not purge, so a stale entry —
here the `create_template` key for title A, aged 2499ms, strictly older
than the 2000ms window — survives the invocation. -/
theorem checkDuplicate_purge_skipped_counterexample :
    ((checkDuplicate "create_template" (serializeTitleArgs "B") 2000 2500
        ((checkDuplicate "create_template" (serializeTitleArgs "B") 2000 1001
          ((checkDuplicate "create_template" (serializeTitleArgs "A") 2000 1
            []).2)).2)).1 = true) ∧
    lookupKV ((checkDuplicate "create_template" (serializeTitleArgs "B") 2000
        2500 ((checkDuplicate "create_template" (serializeTitleArgs "B") 2000
          1001 ((checkDuplicate "create_template" (serializeTitleArgs "A")
            2000 1 []).2)).2)).2)
      ("create_template" ++ "-" ++ serializeTitleArgs "A") = some 1 ∧
    2500 - 1 > 2000 := by
  refine ⟨rfl, rfl, by decide⟩

/-- C8 amended: only a non-suppressing invocation of the duplicate check
purges the ledger — after it, every surviving entry is at most 2000ms old;
a suppressing invocation returns early and leaves the ledger exactly as it
was. -/
theorem checkDuplicate_purges_on_execute (op args : String) (now : Nat)
    (ops : Ledger) :
    ((checkDuplicate op args 2000 now ops).1 = true →
      (checkDuplicate op args 2000 now ops).2 = ops) ∧
    ((checkDuplicate op args 2000 now ops).1 = false →
      ∀ e, e ∈ (checkDuplicate op args 2000 now ops).2 → now - e.2 ≤ 2000) := by
  constructor
  · exact checkDuplicate_true_eq op args 2000 now ops
  · intro hf e he
    rw [checkDuplicate_false_eq op args 2000 now ops hf] at he
    exact mem_purgeOld he

/-- Witness for C8: at a concrete executing call, the purged ledger retains
only entries within the window, and at a concrete suppressed call the
ledger is returned unchanged. -/
theorem checkDuplicate_purges_on_execute_witness :
    ((checkDuplicate "create_template" (serializeTitleArgs "A") 2000 100
      [("create_template" ++ "-" ++ serializeTitleArgs "A", 50)]).2 =
      [("create_template" ++ "-" ++ serializeTitleArgs "A", 50)]) ∧
    (100 - (50 : Nat) ≤ 2000) := by
  constructor
  · exact (checkDuplicate_purges_on_execute "create_template"
      (serializeTitleArgs "A") 100
      [("create_template" ++ "-" ++ serializeTitleArgs "A", 50)]).1 (by decide)
  · exact (checkDuplicate_purges_on_execute "create_template"
      (serializeTitleArgs "B") 100
      [("create_template" ++ "-" ++ serializeTitleArgs "A", 50)]).2 (by decide)
      ("create_template" ++ "-" ++ serializeTitleArgs "A", 50) (by decide)

theorem runChecks_suppressed_mids (op args : String) (t0 tN : Nat) (L : Ledger)
    (hL : lookupKV L (op ++ "-" ++ args) = some t0) (ht0 : t0 ≠ 0)
    (hN : 2000 ≤ tN - t0) :
    ∀ mids : List Nat, (∀ t ∈ mids, t - t0 < 2000) →
      (runChecks op args L (mids ++ [tN])).1 =
        (mids.map fun _ => true) ++ [false] := by
  intro mids
  induction mids with
  | nil =>
    intro _
    simp [runChecks, checkDuplicate_stale op args 2000 tN t0 L hL hN]
  | cons m ms ih =>
    intro hm
    have hdup := checkDuplicate_recent op args 2000 m t0 L hL ht0
      (hm m (List.mem_cons_self m ms))
    simp only [List.cons_append, runChecks, hdup]
    simp [ih (fun t ht => hm t (List.mem_cons_of_mem m ht))]

/-- C9: a suppressed duplicate does not refresh its ledger entry — a
suppressing check leaves the ledger untouched — so the 2000ms window is
measured from the last executed call: starting from a ledger that has not
seen the key, a first call at `t0` executes, every identical call strictly
inside `t0 + 2000` is suppressed, and an identical call at least 2000ms
after `t0` executes again no matter how many suppressed calls intervened. -/
theorem suppressed_duplicates_do_not_refresh (op args : String)
    (t0 tN : Nat) (mids : List Nat) (ops0 : Ledger)
    (hfresh : lookupKV ops0 (op ++ "-" ++ args) = none)
    (ht0 : t0 ≠ 0)
    (hmids : ∀ t ∈ mids, t - t0 < 2000)
    (hN : 2000 ≤ tN - t0) :
    (∀ (t : Nat) (l : Ledger), (checkDuplicate op args 2000 t l).1 = true →
      (checkDuplicate op args 2000 t l).2 = l) ∧
    (runChecks op args ops0 (t0 :: mids ++ [tN])).1 =
      false :: (mids.map fun _ => true) ++ [false] := by
  constructor
  · intro t l
    exact checkDuplicate_true_eq op args 2000 t l
  · have h1 := checkDuplicate_not_seen op args 2000 t0 ops0 hfresh
    have hL1 := lookupKV_purge_setKV ops0 (op ++ "-" ++ args) t0 2000
    simp only [runChecks, h1]
    simp [runChecks_suppressed_mids op args t0 tN _ hL1 ht0 hN mids hmids]

/-- Witness for C9: calls at 100 (executes), 600 and 1500 (suppressed),
2100 (executes again: 2100 - 100 ≥ 2000 despite the suppressed calls). -/
theorem suppressed_duplicates_do_not_refresh_witness :
    (runChecks "create_template" (serializeTitleArgs "A") []
      [100, 600, 1500, 2100]).1 = [false, true, true, false] := by
  have h := (suppressed_duplicates_do_not_refresh "create_template"
    (serializeTitleArgs "A") 100 2100 [600, 1500] [] rfl (by decide)
    (by decide) (by decide)).2
  simpa using h

/-! ### `create_template` duplicate-window claim -/

/-- Running `create_template` on a fresh server state: the call executes,
creates the skeleton document, replaces the session slot and records the
ledger entry. -/
theorem create_template_clean_eq (title : String) (t : Nat) :
    create_template title t cleanServerState =
      ({ success := true
         path := some ("patents/" ++ toString t)
         content := some (initialMd title)
         message := some ("Created new patent document for \"" ++ title ++
           "\". Let\x27s start documenting your invention.") },
       { currentSession := some (createPatentSession title t)
         recentOperations :=
           [("create_template" ++ "-" ++ serializeTitleArgs title, t)]
         fs := { files := [("patents/" ++ toString t ++ "/main.md",
                   initialMd title)]
                 failingWrites := [] } }) := by
  simp [create_template, cleanServerState, checkDuplicate, lookupKV, setKV,
    purgeOld, FS.writeFile, createPatentSession, List.filter, Nat.sub_self]

/-- C1: issuing an identical `create_template` call (same title, hence the
same operation name and byte-identical serialized arguments) twice within
2000ms creates exactly one document: the first call succeeds, the second is
skipped without side effects (the state is returned unchanged and the file
store still holds the single document) and reports the duplicate; issuing
the identical call again at least 2000ms after the first (executed) call
succeeds again. -/
theorem create_template_duplicate_window (title : String) (t1 t2 t3 : Nat)
    (h1 : t1 ≠ 0) (h2 : t2 - t1 < 2000) (h3 : t1 + 2000 ≤ t3) :
    (create_template title t1 cleanServerState).1.success = true ∧
    (create_template title t2
      (create_template title t1 cleanServerState).2).1.success = false ∧
    (create_template title t2
      (create_template title t1 cleanServerState).2).1.message =
      some "Duplicate operation prevented" ∧
    (create_template title t2
      (create_template title t1 cleanServerState).2).2 =
      (create_template title t1 cleanServerState).2 ∧
    (create_template title t2
      (create_template title t1 cleanServerState).2).2.fs.files.length = 1 ∧
    (create_template title t3
      (create_template title t2
        (create_template title t1 cleanServerState).2).2).1.success = true := by
  have e1 := create_template_clean_eq title t1
  have hlook : lookupKV
      [("create_template" ++ "-" ++ serializeTitleArgs title, t1)]
      ("create_template" ++ "-" ++ serializeTitleArgs title) = some t1 := by
    simp [lookupKV]
  have c2 := checkDuplicate_recent "create_template"
    (serializeTitleArgs title) 2000 t2 t1
    [("create_template" ++ "-" ++ serializeTitleArgs title, t1)] hlook h1 h2
  have c3 := checkDuplicate_stale "create_template"
    (serializeTitleArgs title) 2000 t3 t1
    [("create_template" ++ "-" ++ serializeTitleArgs title, t1)] hlook
    (by omega)
  rw [e1]
  simp at c2 c3
  simp only [create_template]
  simp [c2, c3, FS.writeFile]

/-- Witness for C1: title "Widget", calls at 100ms, 1500ms and 2200ms. -/
theorem create_template_duplicate_window_witness :
    (create_template "Widget" 100 cleanServerState).1.success = true ∧
    (create_template "Widget" 1500
      (create_template "Widget" 100 cleanServerState).2).1.success = false ∧
    (create_template "Widget" 1500
      (create_template "Widget" 100 cleanServerState).2).1.message =
      some "Duplicate operation prevented" ∧
    (create_template "Widget" 1500
      (create_template "Widget" 100 cleanServerState).2).2 =
      (create_template "Widget" 100 cleanServerState).2 ∧
    (create_template "Widget" 1500
      (create_template "Widget" 100 cleanServerState).2).2.fs.files.length
      = 1 ∧
    (create_template "Widget" 2200
      (create_template "Widget" 1500
        (create_template "Widget" 100 cleanServerState).2).2).1.success
      = true := by
  exact create_template_duplicate_window "Widget" 100 1500 2200
    (by decide) (by decide) (by decide)

/-! ### Result-shape claim -/

/-- C4 counterexample: when the skeleton write fails, `create_template`
lands in its catch branch and returns `{success:false, error}` with NO
`message` field — refuting the claim that every path carries a
human-readable `message`. -/
theorem dispatch_message_missing_counterexample :
    (dispatch (FnCall.create_template "Widget") 5 failingWriteState).1.message
      = none ∧
    (dispatch (FnCall.create_template "Widget") 5 failingWriteState).1.success
      = false ∧
    (dispatch (FnCall.create_template "Widget") 5 failingWriteState).1.error
      = some "storage error at patents/5/main.md" := by
  refine ⟨rfl, rfl, rfl⟩

/-- C4 amended: every operation of the dispatch table returns, on every
path, a result with a boolean `success` field and either a human-readable
`message` field, or — on the exception-catch branches of `create_template`
and `send_user_response` only — `success:false` with an `error` string
instead of a `message`. -/
theorem dispatch_always_reports (c : FnCall) (now : Nat) (st : ServerState) :
    (dispatch c now st).1.message.isSome = true ∨
    ((dispatch c now st).1.success = false ∧
      (dispatch c now st).1.error.isSome = true ∧
      ((∃ title, c = FnCall.create_template title) ∨
        (∃ msg, c = FnCall.send_user_response msg))) := by
  rcases c with title | _ | _ | _ | msg
  · simp only [dispatch, create_template]
    split
    · left; rfl
    · split
      · left; rfl
      · right; exact ⟨rfl, rfl, Or.inl ⟨title, rfl⟩⟩
  · simp only [dispatch, resume_patent_creation]
    split
    · left; rfl
    · split
      · left; rfl
      · split
        · left; rfl
        · left; rfl
  · simp only [dispatch, display_patent]
    split
    · left; rfl
    · split
      · left; rfl
      · left; rfl
  · simp only [dispatch, export_as_pdf]
    split
    · left; rfl
    · split
      · left; rfl
      · left; rfl
  · simp only [dispatch, send_user_response]
    split
    · left; rfl
    · split
      · right; exact ⟨rfl, rfl, Or.inr ⟨msg, rfl⟩⟩
      · split
        · right; exact ⟨rfl, rfl, Or.inr ⟨msg, rfl⟩⟩
        · left; rfl

/-! ### Append-composition claim -/

theorem send_user_response_append (st : ServerState) (sess : Session)
    (c m : String) (t : Nat)
    (hs : st.currentSession = some sess)
    (hr : st.fs.readFile (sess.path ++ "/main.md") = some c)
    (hw : st.fs.failingWrites = []) :
    (send_user_response m t st).2.currentSession =
      some { sess with lastModified := t } ∧
    (send_user_response m t st).2.fs.readFile (sess.path ++ "/main.md") =
      some (c ++ "\n\n" ++ m) ∧
    (send_user_response m t st).2.fs.failingWrites = [] := by
  have hr' : lookupKV st.fs.files (sess.path ++ "/main.md") = some c := hr
  simp [send_user_response, getCurrentSession, hs, hr', FS.writeFile, hw,
    updateSessionModified, FS.readFile, lookupKV_setKV_self]

theorem runAppends_readFile (msgs : List (String × Nat)) :
    ∀ (st : ServerState) (sess : Session) (c : String),
      st.currentSession = some sess →
      st.fs.readFile (sess.path ++ "/main.md") = some c →
      st.fs.failingWrites = [] →
      (runAppends st msgs).fs.readFile (sess.path ++ "/main.md") =
        some (c ++ appendBlocks (msgs.map Prod.fst)) := by
  induction msgs with
  | nil =>
    intro st sess c hs hr hw
    simpa [runAppends, appendBlocks, string_append_empty] using hr
  | cons mt rest ih =>
    intro st sess c hs hr hw
    obtain ⟨h1, h2, h3⟩ := send_user_response_append st sess c mt.1 mt.2 hs hr hw
    have hrun : runAppends st (mt :: rest) =
        runAppends (send_user_response mt.1 mt.2 st).2 rest := by
      simp [runAppends]
    rw [hrun]
    have hrec := ih (send_user_response mt.1 mt.2 st).2
      { sess with lastModified := mt.2 } (c ++ "\n\n" ++ mt.1) h1 h2 h3
    simpa [appendBlocks, string_append_assoc] using hrec

/-- C5: after `create_template title` on a fresh state followed by N
sequential `send_user_response` appends, reading the document yields the
five-section skeleton interpolated with the title followed by the N
appended blocks in call order, each introduced by the two-newline (one
blank line) separator. -/
theorem create_then_append_blocks (title : String) (t0 : Nat)
    (msgs : List (String × Nat)) :
    (runAppends (create_template title t0 cleanServerState).2 msgs).fs.readFile
        ("patents/" ++ toString t0 ++ "/main.md") =
      some (initialMd title ++ appendBlocks (msgs.map Prod.fst)) := by
  rw [create_template_clean_eq]
  have h := runAppends_readFile msgs
    { currentSession := some (createPatentSession title t0)
      recentOperations :=
        [("create_template" ++ "-" ++ serializeTitleArgs title, t0)]
      fs := { files := [("patents/" ++ toString t0 ++ "/main.md",
                initialMd title)]
              failingWrites := [] } }
    (createPatentSession title t0) (initialMd title) rfl
    (by simp [FS.readFile, lookupKV, createPatentSession]) rfl
  simpa [createPatentSession] using h

/-! ### Session-registry claims -/

/-- C6 counterexample: two distinct `startNew` calls issued in the same
millisecond (clock value 5) produce sessions with the SAME id "5": the id
is not unique. -/
theorem startNew_id_collision :
    ((startNew none "Widget A" 5).1).id =
      ((startNew (startNew none "Widget A" 5).2 "Widget B" 5).1).id ∧
    "Widget A" ≠ "Widget B" := by
  refine ⟨rfl, by decide⟩

/-- C6 amended: every `startNew` call replaces the single active-session
slot with a record whose `createdAt` and `lastModified` are set to the
clock value, and after any sequence of calls `current()` returns exactly
the record of the most recent call (never a stale one); the time-derived ids of
two calls are distinct whenever their millisecond clock values are
distinct (uniqueness can fail only for calls within the same
millisecond). -/
theorem startNew_registry_contract (calls : List (String × Nat))
    (title : String) (now : Nat) (slot : Option Session)
    (t1 t2 : String) (n1 n2 : Nat) (hne : n1 ≠ n2) :
    getCurrentSession (runStartNew slot (calls ++ [(title, now)])) =
      some (createPatentSession title now) ∧
    (createPatentSession title now).createdAt = now ∧
    (createPatentSession title now).lastModified = now ∧
    (createPatentSession t1 n1).id ≠ (createPatentSession t2 n2).id := by
  refine ⟨?_, rfl, rfl, ?_⟩
  · simp [runStartNew, List.foldl_append, startNew, getCurrentSession]
  · intro h
    have h' : Nat.repr n1 = Nat.repr n2 := h
    exact hne (nat_repr_injective h')

/-- Witness for C6 (amended): a concrete run of two calls plus a pair of
distinct clock values. -/
theorem startNew_registry_contract_witness :
    getCurrentSession (runStartNew none [("A", 1), ("B", 7)]) =
      some (createPatentSession "B" 7) ∧
    (createPatentSession "B" 7).createdAt = 7 ∧
    (createPatentSession "B" 7).lastModified = 7 ∧
    (createPatentSession "X" 3).id ≠ (createPatentSession "Y" 4).id := by
  exact startNew_registry_contract [("A", 1)] "B" 7 none "X" "Y" 3 4
    (by decide)

/-! ### Deactivation frame claim -/

/-- C7: the channel transition from active to inactive resets exactly the
activation state owned by the relay (the configuration-sent flag, the pending
function-call output and the most-recent-signature marker, i.e. the whole
component state returns to its initial value) and leaves the server state
— in particular the active session record — unchanged, so that afterwards
`resume_patent_creation` still recovers the session and its document. -/
theorem deactivation_preserves_registry (w : World) (sess : Session)
    (c : String) (now : Nat)
    (hs : w.server.currentSession = some sess)
    (hr : w.server.fs.readFile (sess.path ++ "/main.md") = some c)
    (hl : lookupKV w.server.recentOperations
      ("resume_patent_creation" ++ "-" ++ "\x7b\x7d") = none) :
    (deactivateChannel w).relay = initRelayState ∧
    (deactivateChannel w).server = w.server ∧
    (resume_patent_creation now (deactivateChannel w).server).1.success
      = true ∧
    (resume_patent_creation now (deactivateChannel w).server).1.content
      = some c := by
  have hc := checkDuplicate_not_seen "resume_patent_creation" "\x7b\x7d"
    2000 now w.server.recentOperations hl
  refine ⟨rfl, rfl, ?_, ?_⟩
  · show (resume_patent_creation now w.server).1.success = true
    simp [resume_patent_creation, hc, getCurrentSession, hs, hr]
  · show (resume_patent_creation now w.server).1.content = some c
    simp [resume_patent_creation, hc, getCurrentSession, hs, hr]

/-- Witness for C7 at a concrete world. -/
theorem deactivation_preserves_registry_witness :
    (deactivateChannel
      { relay := { functionAdded := true
                   functionCallOutput := some sampleCallA
                   lastFunctionCall := some (serializeOutput sampleCallA) }
        server := { currentSession := some (createPatentSession "W" 5)
                    recentOperations := []
                    fs := { files := [("patents/5/main.md", "doc")]
                            failingWrites := [] } } }).server =
      { currentSession := some (createPatentSession "W" 5)
        recentOperations := []
        fs := { files := [("patents/5/main.md", "doc")]
                failingWrites := [] } } := by
  exact (deactivation_preserves_registry
    { relay := { functionAdded := true
                 functionCallOutput := some sampleCallA
                 lastFunctionCall := some (serializeOutput sampleCallA) }
      server := { currentSession := some (createPatentSession "W" 5)
                  recentOperations := []
                  fs := { files := [("patents/5/main.md", "doc")]
                          failingWrites := [] } } }
    (createPatentSession "W" 5) "doc" 9 rfl (by decide) rfl).2.1

end PatentApp
